import Mathlib

/-!
Shallow embedding of the signal lifecycle engine of `src/main.py`:
the per-signal body of `monitor_prices`, the SQLite lease
`_try_acquire_lock_sync`, and the MARKET-mode ingestion path of
`main_async`.  Prices are rationals, timestamps are integers.
-/

namespace Poly

inductive Side where
  | LONG
  | SHORT
  deriving DecidableEq, Repr

inductive Mode where
  | MARKET
  | WAIT
  deriving DecidableEq, Repr

/-- One row of the `signals` table (the columns the engine reads/writes);
`sheet_row` is Sheets-mirroring bookkeeping and is not part of the
lifecycle record. -/
structure Signal where
  symbol : String
  side : Side
  mode : Mode
  entry1_low : ℚ
  entry1_high : ℚ
  entry2_low : Option ℚ
  entry2_high : Option ℚ
  tps : List ℚ
  created_ts : ℤ
  activated : Bool
  activated_ts : Option ℤ
  activated_price : Option ℚ
  tp_hits : ℕ
  entry2_activated : Bool
  entry2_activated_ts : Option ℤ
  entry2_activated_price : Option ℚ
  tp1_rehit_sent : Bool
  avg_reached_sent : Bool
  reporting_expired : Bool
  deriving DecidableEq, Repr

/-- Configuration (env vars): windows in days, threshold percents. -/
structure Config where
  activation_valid_days : ℤ
  reporting_active_days : ℤ
  entry2_disable_profit_pct : ℚ
  leverage : ℚ
  return_to_ep1_tol_pct : ℚ
  deriving DecidableEq, Repr

/-- The per-signal `state`-table keys used by the return-to-EP1 block
(keys `rt_ep1_was_below`, `rt_ep1_sent`, `rt_ep1_best_lev` per signal id). -/
structure KV where
  wasBelow : Bool
  sent : Bool
  best : ℚ
  deriving DecidableEq, Repr

/-- Store writes and EventSink emissions, in the order the engine issues
them within one tick. -/
inductive Op where
  | persistActivation : ℤ → ℚ → Op
  | persistEntry2 : ℤ → ℚ → Op
  | persistExpired : Op
  | persistAvgSent : Op
  | persistTp1RehitSent : Op
  | persistTpHits : ℕ → Op
  | emitActivated : ℚ → Op
  | emitEntry2Activated : ℚ → Op
  | emitAvgReached : Op
  | emitReturnToEP1 : Op
  | emitTp1Rehit : Op
  | emitTargetHit : ℕ → ℚ → ℚ → Op
  deriving DecidableEq, Repr

/-- Function `pct_from_entry(price, entry, side)` of `src/main.py`. -/
def pct_from_entry (price : ℚ) (entry : Option ℚ) (side : Side) : ℚ :=
  match entry with
  | none => 0
  | some e =>
    if e = 0 then 0
    else
      match side with
      | Side.LONG => (price - e) / e * 100
      | Side.SHORT => (e - price) / e * 100

/-- Function `in_range(price, low, high)` of `src/main.py`. -/
def in_range (price low high : Option ℚ) : Bool :=
  match price, low, high with
  | some p, some l, some h => decide (l ≤ p) && decide (p ≤ h)
  | _, _, _ => false

/-- Function `is_reporting_active(now_ts, activated_ts)`: Python `if not activated_ts`
is falsy for both `None` and `0`. -/
def is_reporting_active (cfg : Config) (now : ℤ) (activated_ts : Option ℤ) : Bool :=
  match activated_ts with
  | none => false
  | some t => if t = 0 then false else decide (now ≤ t + cfg.reporting_active_days * 86400)

/-- Function `is_activation_valid(now_ts, created_ts)`. -/
def is_activation_valid (cfg : Config) (now created : ℤ) : Bool :=
  decide (now ≤ created + cfg.activation_valid_days * 86400)

/-- Line 1013: `is_hit = (price >= tp) if side == "LONG" else (price <= tp)`. -/
def tp_is_hit (side : Side) (price tp : ℚ) : Bool :=
  match side with
  | Side.LONG => decide (price ≥ tp)
  | Side.SHORT => decide (price ≤ tp)

/-- The `while tp_hits < len(tps)` loop, scanning the still-unconsumed
suffix of the target list (the loop reads `tps[tp_hits]` and increments
`tp_hits` by one on each hit, i.e. walks `tps.drop hits`).  Returns the
new `tp_hits` and the ops: for each hit, the `UPDATE ... tp_hits` commit
followed by the TargetHit emission. -/
def tp_scan (side : Side) (p : ℚ) (rest : List ℚ) (hits : ℕ) : ℕ × List Op :=
  match rest with
  | [] => (hits, [])
  | tp :: more =>
    if tp_is_hit side p tp then
      let r := tp_scan side p more (hits + 1)
      (r.1, Op.persistTpHits (hits + 1) :: Op.emitTargetHit (hits + 1) p tp :: r.2)
    else (hits, [])

def tp_loop (side : Side) (p : ℚ) (tps : List ℚ) (hits : ℕ) : ℕ × List Op :=
  tp_scan side p (tps.drop hits) hits

/-- Step 1 of `monitor_prices`: WAIT activation within the creation window. -/
def wait_activation (cfg : Config) (now : ℤ) (p : ℚ) (s : Signal) : Signal × List Op :=
  if is_activation_valid cfg now s.created_ts then
    let in_e1 := in_range (some p) (some s.entry1_low) (some s.entry1_high)
    let in_e2 := !in_e1 && in_range (some p) s.entry2_low s.entry2_high
    if in_e1 || in_e2 then
      let s1 := { s with activated := true, activated_ts := some now,
                         activated_price := some p }
      let r2 : Signal × List Op :=
        if in_e2 && s.entry2_low.isSome && s.entry2_high.isSome then
          ({ s1 with entry2_activated := true, entry2_activated_ts := some now,
                     entry2_activated_price := some p },
           [Op.persistEntry2 now p])
        else (s1, [])
      (r2.1, Op.persistActivation now p :: r2.2 ++ [Op.emitActivated p])
    else (s, [])
  else (s, [])

/-- Lines 832-837, the `entry1_price` fix-up: `activated_price`, falling back
to the live price when missing or zero. -/
def entry1_price_of (p : ℚ) (s : Signal) : Option ℚ :=
  if s.activated then
    match s.activated_price with
    | some ap => if ap = 0 then some p else some ap
    | none => some p
  else none

/-- Lines 840-842, `perf_from_e1`, with Python truthiness on `entry1_price`. -/
def perf_from_e1_of (p : ℚ) (s : Signal) : ℚ :=
  match entry1_price_of p s with
  | none => 0
  | some e => if e = 0 then 0 else pct_from_entry p (some e) s.side

/-- Step 2: entry2 activation for an already-activated signal. -/
def entry2_step (cfg : Config) (now : ℤ) (p : ℚ) (perf : ℚ) (s : Signal) :
    Signal × List Op :=
  if s.activated && !s.entry2_activated && s.entry2_low.isSome && s.entry2_high.isSome then
    let entry2_allowed := is_activation_valid cfg now s.created_ts &&
      decide (perf < cfg.entry2_disable_profit_pct)
    if entry2_allowed && in_range (some p) s.entry2_low s.entry2_high then
      ({ s with entry2_activated := true, entry2_activated_ts := some now,
                entry2_activated_price := some p },
       [Op.persistEntry2 now p, Op.emitEntry2Activated p])
    else (s, [])
  else (s, [])

/-- Step 2.5: the "average reclaimed" one-shot (message first, then the
flag commit, as in the code). -/
def avg_step (p : ℚ) (e1p : Option ℚ) (s : Signal) : Signal × List Op :=
  if s.activated && s.entry2_activated && !s.avg_reached_sent then
    match e1p, s.entry2_activated_price with
    | some e1, some e2 =>
      if e1 = 0 ∨ e2 = 0 then (s, [])
      else
        let avg := (e1 + e2) / 2
        let reached :=
          match s.side with
          | Side.LONG => decide (p ≥ avg)
          | Side.SHORT => decide (p ≤ avg)
        if reached then
          ({ s with avg_reached_sent := true }, [Op.emitAvgReached, Op.persistAvgSent])
        else (s, [])
    | _, _ => (s, [])
  else (s, [])

/-- Step 2.6: "EP2 active, price back above EP1" block, driven by the
`state` key/value entries. -/
def return_ep1_step (cfg : Config) (p : ℚ) (e1p : Option ℚ) (s : Signal) (kv : KV) :
    KV × List Op :=
  if s.activated && s.entry2_activated then
    match e1p, s.entry2_activated_price with
    | some e1, some e2 =>
      if e1 = 0 ∨ e2 = 0 then (kv, [])
      else
        let tol := cfg.return_to_ep1_tol_pct / 100
        let below_now :=
          match s.side with
          | Side.LONG => decide (p < e1 * (1 - tol))
          | Side.SHORT => decide (p > e1 * (1 + tol))
        let reclaimed_now :=
          match s.side with
          | Side.LONG => decide (p ≥ e1 * (1 - tol))
          | Side.SHORT => decide (p ≤ e1 * (1 + tol))
        let was_below := kv.wasBelow
        let already_sent := kv.sent
        let kv1 := if below_now then { kv with wasBelow := true } else kv
        if was_below && reclaimed_now && !already_sent then
          let g1 := pct_from_entry p (some e1) s.side
          let g2 := pct_from_entry p (some e2) s.side
          let combined := g1 * cfg.leverage + g2 * cfg.leverage
          if combined > kv1.best + 1 / 1000000 then
            ({ kv1 with best := combined, sent := true }, [Op.emitReturnToEP1])
          else (kv1, [])
        else (kv1, [])
    | _, _ => (kv, [])
  else (kv, [])

/-- Step 3: the TP1 re-hit-after-entry2 one-shot (message only when the
entry2 price is truthy; the flag is committed on any hit). -/
def tp1_rehit_step (p : ℚ) (s : Signal) : Signal × List Op :=
  if s.activated && s.entry2_activated && decide (1 ≤ s.tp_hits) &&
      !s.tp1_rehit_sent && decide (1 ≤ s.tps.length) then
    match s.tps.head? with
    | some tp1 =>
      if tp_is_hit s.side p tp1 then
        let emits : List Op :=
          match s.entry2_activated_price with
          | some e2 => if e2 = 0 then [] else [Op.emitTp1Rehit]
          | none => []
        ({ s with tp1_rehit_sent := true }, emits ++ [Op.persistTp1RehitSent])
      else (s, [])
    | none => (s, [])
  else (s, [])

/-- Step 4: normal TP hits. -/
def tp_step (p : ℚ) (s : Signal) : Signal × List Op :=
  if s.activated then
    let r := tp_loop s.side p s.tps s.tp_hits
    ({ s with tp_hits := r.1 }, r.2)
  else (s, [])

/-- Lines 831-1058: the post-activation body of one tick (steps 2, 2.5,
2.6, 3, 4 in source order; local variables such as `e2_activated`
are updated in place, so later steps observe earlier updates). -/
def active_body (cfg : Config) (now : ℤ) (p : ℚ) (s : Signal) (kv : KV) :
    Signal × KV × List Op :=
  let e1p := entry1_price_of p s
  let perf := perf_from_e1_of p s
  let r2 := entry2_step cfg now p perf s
  let r25 := avg_step p e1p r2.1
  let r26 := return_ep1_step cfg p e1p r25.1 kv
  let r3 := tp1_rehit_step p r25.1
  let r4 := tp_step p r3.1
  (r4.1, r26.1, r2.2 ++ r25.2 ++ r26.2 ++ r3.2 ++ r4.2)

/-- One iteration of the per-signal loop body of `monitor_prices` for a
single signal: price-unavailable skip, expired skip, WAIT activation,
reporting-window expiry, then the active body. -/
def monitor_tick (cfg : Config) (now : ℤ) (price : Option ℚ) (s : Signal) (kv : KV) :
    Signal × KV × List Op :=
  match price with
  | none => (s, kv, [])
  | some p =>
    if s.reporting_expired then (s, kv, [])
    else if !s.activated && s.mode = Mode.WAIT then
      let r := wait_activation cfg now p s
      (r.1, kv, r.2)
    else if s.activated && !is_reporting_active cfg now s.activated_ts then
      ({ s with reporting_expired := true }, kv, [Op.persistExpired])
    else
      active_body cfg now p s kv

/-- A sequence of engine ticks for one signal: each tick supplies a wall
clock and the price-lookup outcome. -/
def run_ticks (cfg : Config) (ticks : List (ℤ × Option ℚ)) (s : Signal) (kv : KV) :
    Signal × KV :=
  match ticks with
  | [] => (s, kv)
  | (now, pr) :: rest =>
    let r := monitor_tick cfg now pr s kv
    run_ticks cfg rest r.1 r.2.1

/-- Same, also accumulating the emitted/persisted ops in order. -/
def run_trace (cfg : Config) (ticks : List (ℤ × Option ℚ)) (s : Signal) (kv : KV) :
    Signal × KV × List Op :=
  match ticks with
  | [] => (s, kv, [])
  | (now, pr) :: rest =>
    let r := monitor_tick cfg now pr s kv
    let rr := run_trace cfg rest r.1 r.2.1
    (rr.1, rr.2.1, r.2.2 ++ rr.2.2)

/-- The `state` rows backing the instance lock (`instance_lock_owner`,
`instance_lock_until`); a missing row reads as `""` / `0` as in the code. -/
structure LockKV where
  lock_owner : Option String
  lock_until : Option ℕ
  deriving DecidableEq, Repr

def cur_owner (st : LockKV) : String := st.lock_owner.getD ""

def cur_until (st : LockKV) : ℕ := st.lock_until.getD 0

/-- Function `_try_acquire_lock_sync(conn, owner, ttl_sec)` at wall clock `now`:
grant when expired, same owner, or unset; on grant upsert both keys. -/
def try_acquire_lock_sync (st : LockKV) (owner : String) (ttl_sec now : ℕ) :
    Bool × LockKV :=
  if cur_until st ≤ now ∨ cur_owner st = owner ∨ cur_owner st = "" then
    (true, { lock_owner := some owner, lock_until := some (now + ttl_sec) })
  else (false, st)

/-- A parsed draft as produced by `parse_signal`. -/
structure Draft where
  symbol : String
  side : Side
  mode : Mode
  entry1_low : ℚ
  entry1_high : ℚ
  entry2_low : Option ℚ
  entry2_high : Option ℚ
  tps : List ℚ
  deriving DecidableEq, Repr

/-- The freshly-inserted row of `save_signal` (all lifecycle fields at
their schema defaults). -/
def mk_signal (d : Draft) (created : ℤ) : Signal :=
  { symbol := d.symbol, side := d.side, mode := d.mode,
    entry1_low := d.entry1_low, entry1_high := d.entry1_high,
    entry2_low := d.entry2_low, entry2_high := d.entry2_high,
    tps := d.tps, created_ts := created,
    activated := false, activated_ts := none, activated_price := none,
    tp_hits := 0,
    entry2_activated := false, entry2_activated_ts := none,
    entry2_activated_price := none,
    tp1_rehit_sent := false, avg_reached_sent := false,
    reporting_expired := false }

/-- Function `save_signal`: `None` on the unique-key (source message id) collision. -/
def save_signal (store : List (ℕ × Signal)) (msgId : ℕ) (d : Draft) (now : ℤ) :
    Option (List (ℕ × Signal)) :=
  if store.any (fun e => e.1 == msgId) then none
  else some (store ++ [(msgId, mk_signal d now)])

/-- The `UPDATE signals SET activated=1 ...` of the MARKET branch. -/
def market_activate (store : List (ℕ × Signal)) (msgId : ℕ) (now : ℤ) (p : ℚ) :
    List (ℕ × Signal) :=
  store.map (fun e =>
    if e.1 == msgId then
      (e.1, { e.2 with activated := true, activated_ts := some now,
                       activated_price := some p })
    else e)

/-- Lines 1149-1201 of `main_async` for one post: a duplicate insert
`continue`s before the MARKET branch; a fresh MARKET insert fetches the
price once and either activates or logs "(skip)". -/
def ingest_post (store : List (ℕ × Signal)) (msgId : ℕ) (d : Draft) (now : ℤ)
    (price : Option ℚ) : List (ℕ × Signal) :=
  match save_signal store msgId d now with
  | none => store
  | some store1 =>
    if d.mode = Mode.MARKET then
      match price with
      | none => store1
      | some p => market_activate store1 msgId now p
    else store1

/-- The 1-based indices of the TargetHit events in an op trace. -/
def targetHitIndices (ops : List Op) : List ℕ :=
  ops.filterMap (fun o =>
    match o with
    | Op.emitTargetHit k _ _ => some k
    | _ => none)

/-- Nothing in `ops` is a TargetHit emission. -/
def noTargetEmit (ops : List Op) : Prop :=
  ∀ k p tp, Op.emitTargetHit k p tp ∉ ops

/-- Every TargetHit emission is preceded (strictly earlier in the trace)
by the store commit of the same `tp_hits` value. -/
def persistBeforeEmit (ops : List Op) : Prop :=
  ∀ i k p tp, ops.get? i = some (Op.emitTargetHit k p tp) →
    ∃ j, j < i ∧ ops.get? j = some (Op.persistTpHits k)

def countTp1Rehit (ops : List Op) : ℕ := ops.count Op.emitTp1Rehit

lemma tp_scan_fst_le (side : Side) (p : ℚ) :
    ∀ (rest : List ℚ) (hits : ℕ), hits ≤ (tp_scan side p rest hits).1 := by
  intro rest
  induction rest with
  | nil => intro hits; exact Nat.le_refl _
  | cons tp more ih =>
    intro hits
    cases h : tp_is_hit side p tp with
    | true =>
      simp only [tp_scan, h, if_true]
      exact Nat.le_trans (Nat.le_succ _) (ih (hits + 1))
    | false => simp [tp_scan, h]

lemma tp_scan_fst_le_add (side : Side) (p : ℚ) :
    ∀ (rest : List ℚ) (hits : ℕ), (tp_scan side p rest hits).1 ≤ hits + rest.length := by
  intro rest
  induction rest with
  | nil => intro hits; simp [tp_scan]
  | cons tp more ih =>
    intro hits
    cases h : tp_is_hit side p tp with
    | true =>
      simp only [tp_scan, h, if_true, List.length_cons]
      have := ih (hits + 1)
      omega
    | false =>
      simp only [tp_scan, h, List.length_cons]
      simp

lemma tp_loop_fst_le (side : Side) (p : ℚ) (tps : List ℚ) (hits : ℕ) :
    hits ≤ (tp_loop side p tps hits).1 :=
  tp_scan_fst_le side p (tps.drop hits) hits

lemma tp_loop_fst_le_length (side : Side) (p : ℚ) (tps : List ℚ) (hits : ℕ)
    (h : hits ≤ tps.length) : (tp_loop side p tps hits).1 ≤ tps.length := by
  have := tp_scan_fst_le_add side p (tps.drop hits) hits
  rw [List.length_drop] at this
  unfold tp_loop
  omega

lemma tp_scan_indices (side : Side) (p : ℚ) :
    ∀ (rest : List ℚ) (hits : ℕ),
      targetHitIndices (tp_scan side p rest hits).2 =
        List.range' (hits + 1) ((tp_scan side p rest hits).1 - hits) := by
  intro rest
  induction rest with
  | nil => intro hits; simp [tp_scan, targetHitIndices]
  | cons tp more ih =>
    intro hits
    cases h : tp_is_hit side p tp with
    | true =>
      simp only [tp_scan, h, if_true]
      have h1 := tp_scan_fst_le side p more (hits + 1)
      have h2 : (tp_scan side p more (hits + 1)).1 - hits =
          ((tp_scan side p more (hits + 1)).1 - (hits + 1)) + 1 := by omega
      rw [h2, List.range'_succ]
      simpa [targetHitIndices] using ih (hits + 1)
    | false => simp [tp_scan, h, targetHitIndices]

lemma tp_scan_hits_all (side : Side) (p : ℚ) :
    ∀ (rest : List ℚ) (hits k : ℕ) (t : ℚ),
      k < (tp_scan side p rest hits).1 - hits → rest.get? k = some t →
      tp_is_hit side p t = true := by
  intro rest
  induction rest with
  | nil => intro hits k t hk _; simp [tp_scan] at hk
  | cons tp more ih =>
    intro hits k t hk hget
    cases h : tp_is_hit side p tp with
    | true =>
      simp only [tp_scan, h, if_true] at hk
      match k with
      | 0 =>
        simp only [List.get?, Option.some.injEq] at hget
        rw [← hget]
        exact h
      | Nat.succ k =>
        have h1 := tp_scan_fst_le side p more (hits + 1)
        exact ih (hits + 1) k t (by omega) hget
    | false =>
      simp [tp_scan, h] at hk

lemma tp_scan_stop (side : Side) (p : ℚ) :
    ∀ (rest : List ℚ) (hits : ℕ),
      (tp_scan side p rest hits).1 - hits < rest.length →
      ∃ t, rest.get? ((tp_scan side p rest hits).1 - hits) = some t ∧
        tp_is_hit side p t = false := by
  intro rest
  induction rest with
  | nil => intro hits h; simp [tp_scan] at h
  | cons tp more ih =>
    intro hits h
    cases hh : tp_is_hit side p tp with
    | true =>
      simp only [tp_scan, hh, if_true] at h ⊢
      have h1 := tp_scan_fst_le side p more (hits + 1)
      have h2 : (tp_scan side p more (hits + 1)).1 - hits =
          ((tp_scan side p more (hits + 1)).1 - (hits + 1)) + 1 := by omega
      rw [h2]
      simp only [List.length_cons] at h
      obtain ⟨t, ht, htf⟩ := ih (hits + 1) (by omega)
      exact ⟨t, by simpa using ht, htf⟩
    | false =>
      refine ⟨tp, ?_, hh⟩
      simp [tp_scan, hh]

lemma tp_scan_pbe (side : Side) (p : ℚ) :
    ∀ (rest : List ℚ) (hits : ℕ), persistBeforeEmit (tp_scan side p rest hits).2 := by
  intro rest
  induction rest with
  | nil => intro hits i k pr tp h; simp [tp_scan] at h
  | cons tp more ih =>
    intro hits i k pr tp0 h
    cases hh : tp_is_hit side p tp with
    | true =>
      simp only [tp_scan, hh, if_true] at h ⊢
      match i with
      | 0 => simp at h
      | 1 =>
        simp only [List.get?, Option.some.injEq, Op.emitTargetHit.injEq] at h
        refine ⟨0, Nat.zero_lt_one, ?_⟩
        rw [h.1]
        rfl
      | Nat.succ (Nat.succ i) =>
        simp only [List.get?] at h
        obtain ⟨j, hj, hg⟩ := ih (hits + 1) i k pr tp0 h
        refine ⟨j + 2, by omega, ?_⟩
        simpa only [List.get?] using hg
    | false =>
      simp [tp_scan, hh] at h

@[simp] lemma entry2_step_fst_activated (cfg : Config) (now : ℤ) (p perf : ℚ) (s : Signal) :
    (entry2_step cfg now p perf s).1.activated = s.activated := by
  simp only [entry2_step]; (repeat' split) <;> rfl

@[simp] lemma entry2_step_fst_side (cfg : Config) (now : ℤ) (p perf : ℚ) (s : Signal) :
    (entry2_step cfg now p perf s).1.side = s.side := by
  simp only [entry2_step]; (repeat' split) <;> rfl

@[simp] lemma entry2_step_fst_tps (cfg : Config) (now : ℤ) (p perf : ℚ) (s : Signal) :
    (entry2_step cfg now p perf s).1.tps = s.tps := by
  simp only [entry2_step]; (repeat' split) <;> rfl

@[simp] lemma entry2_step_fst_tp_hits (cfg : Config) (now : ℤ) (p perf : ℚ) (s : Signal) :
    (entry2_step cfg now p perf s).1.tp_hits = s.tp_hits := by
  simp only [entry2_step]; (repeat' split) <;> rfl

@[simp] lemma entry2_step_fst_tp1_sent (cfg : Config) (now : ℤ) (p perf : ℚ) (s : Signal) :
    (entry2_step cfg now p perf s).1.tp1_rehit_sent = s.tp1_rehit_sent := by
  simp only [entry2_step]; (repeat' split) <;> rfl

@[simp] lemma entry2_step_fst_expired (cfg : Config) (now : ℤ) (p perf : ℚ) (s : Signal) :
    (entry2_step cfg now p perf s).1.reporting_expired = s.reporting_expired := by
  simp only [entry2_step]; (repeat' split) <;> rfl

@[simp] lemma avg_step_fst_activated (p : ℚ) (e1p : Option ℚ) (s : Signal) :
    (avg_step p e1p s).1.activated = s.activated := by
  simp only [avg_step]; (repeat' split) <;> rfl

@[simp] lemma avg_step_fst_side (p : ℚ) (e1p : Option ℚ) (s : Signal) :
    (avg_step p e1p s).1.side = s.side := by
  simp only [avg_step]; (repeat' split) <;> rfl

@[simp] lemma avg_step_fst_tps (p : ℚ) (e1p : Option ℚ) (s : Signal) :
    (avg_step p e1p s).1.tps = s.tps := by
  simp only [avg_step]; (repeat' split) <;> rfl

@[simp] lemma avg_step_fst_tp_hits (p : ℚ) (e1p : Option ℚ) (s : Signal) :
    (avg_step p e1p s).1.tp_hits = s.tp_hits := by
  simp only [avg_step]; (repeat' split) <;> rfl

@[simp] lemma avg_step_fst_e2 (p : ℚ) (e1p : Option ℚ) (s : Signal) :
    (avg_step p e1p s).1.entry2_activated = s.entry2_activated := by
  simp only [avg_step]; (repeat' split) <;> rfl

@[simp] lemma avg_step_fst_e2_price (p : ℚ) (e1p : Option ℚ) (s : Signal) :
    (avg_step p e1p s).1.entry2_activated_price = s.entry2_activated_price := by
  simp only [avg_step]; (repeat' split) <;> rfl

@[simp] lemma avg_step_fst_tp1_sent (p : ℚ) (e1p : Option ℚ) (s : Signal) :
    (avg_step p e1p s).1.tp1_rehit_sent = s.tp1_rehit_sent := by
  simp only [avg_step]; (repeat' split) <;> rfl

@[simp] lemma avg_step_fst_expired (p : ℚ) (e1p : Option ℚ) (s : Signal) :
    (avg_step p e1p s).1.reporting_expired = s.reporting_expired := by
  simp only [avg_step]; (repeat' split) <;> rfl

@[simp] lemma tp1_rehit_step_fst_activated (p : ℚ) (s : Signal) :
    (tp1_rehit_step p s).1.activated = s.activated := by
  simp only [tp1_rehit_step]; (repeat' split) <;> rfl

@[simp] lemma tp1_rehit_step_fst_side (p : ℚ) (s : Signal) :
    (tp1_rehit_step p s).1.side = s.side := by
  simp only [tp1_rehit_step]; (repeat' split) <;> rfl

@[simp] lemma tp1_rehit_step_fst_tps (p : ℚ) (s : Signal) :
    (tp1_rehit_step p s).1.tps = s.tps := by
  simp only [tp1_rehit_step]; (repeat' split) <;> rfl

@[simp] lemma tp1_rehit_step_fst_tp_hits (p : ℚ) (s : Signal) :
    (tp1_rehit_step p s).1.tp_hits = s.tp_hits := by
  simp only [tp1_rehit_step]; (repeat' split) <;> rfl

@[simp] lemma tp1_rehit_step_fst_e2 (p : ℚ) (s : Signal) :
    (tp1_rehit_step p s).1.entry2_activated = s.entry2_activated := by
  simp only [tp1_rehit_step]; (repeat' split) <;> rfl

@[simp] lemma tp1_rehit_step_fst_expired (p : ℚ) (s : Signal) :
    (tp1_rehit_step p s).1.reporting_expired = s.reporting_expired := by
  simp only [tp1_rehit_step]; (repeat' split) <;> rfl

@[simp] lemma tp_step_fst_tps (p : ℚ) (s : Signal) :
    (tp_step p s).1.tps = s.tps := by
  simp only [tp_step]; (repeat' split) <;> rfl

@[simp] lemma tp_step_fst_e2 (p : ℚ) (s : Signal) :
    (tp_step p s).1.entry2_activated = s.entry2_activated := by
  simp only [tp_step]; (repeat' split) <;> rfl

@[simp] lemma tp_step_fst_tp1_sent (p : ℚ) (s : Signal) :
    (tp_step p s).1.tp1_rehit_sent = s.tp1_rehit_sent := by
  simp only [tp_step]; (repeat' split) <;> rfl

@[simp] lemma tp_step_fst_expired (p : ℚ) (s : Signal) :
    (tp_step p s).1.reporting_expired = s.reporting_expired := by
  simp only [tp_step]; (repeat' split) <;> rfl

lemma tp_step_fst_tp_hits (p : ℚ) (s : Signal) :
    (tp_step p s).1.tp_hits =
      if s.activated then (tp_loop s.side p s.tps s.tp_hits).1 else s.tp_hits := by
  simp only [tp_step]; (repeat' split) <;> simp_all

@[simp] lemma wait_activation_fst_tps (cfg : Config) (now : ℤ) (p : ℚ) (s : Signal) :
    (wait_activation cfg now p s).1.tps = s.tps := by
  simp only [wait_activation]; (repeat' split) <;> rfl

@[simp] lemma wait_activation_fst_tp_hits (cfg : Config) (now : ℤ) (p : ℚ) (s : Signal) :
    (wait_activation cfg now p s).1.tp_hits = s.tp_hits := by
  simp only [wait_activation]; (repeat' split) <;> rfl

@[simp] lemma wait_activation_fst_tp1_sent (cfg : Config) (now : ℤ) (p : ℚ) (s : Signal) :
    (wait_activation cfg now p s).1.tp1_rehit_sent = s.tp1_rehit_sent := by
  simp only [wait_activation]; (repeat' split) <;> rfl

lemma entry2_step_of_e2 (cfg : Config) (now : ℤ) (p perf : ℚ) (s : Signal)
    (h : s.entry2_activated = true) : entry2_step cfg now p perf s = (s, []) := by
  simp [entry2_step, h]

lemma active_body_fst_tps (cfg : Config) (now : ℤ) (p : ℚ) (s : Signal) (kv : KV) :
    (active_body cfg now p s kv).1.tps = s.tps := by
  simp only [active_body, tp_step_fst_tps, tp1_rehit_step_fst_tps, avg_step_fst_tps,
    entry2_step_fst_tps]

lemma active_body_fst_tp_hits (cfg : Config) (now : ℤ) (p : ℚ) (s : Signal) (kv : KV) :
    (active_body cfg now p s kv).1.tp_hits =
      if s.activated then (tp_loop s.side p s.tps s.tp_hits).1 else s.tp_hits := by
  simp only [active_body, tp_step_fst_tp_hits, tp1_rehit_step_fst_activated,
    avg_step_fst_activated, entry2_step_fst_activated, tp1_rehit_step_fst_side,
    avg_step_fst_side, entry2_step_fst_side, tp1_rehit_step_fst_tps, avg_step_fst_tps,
    entry2_step_fst_tps, tp1_rehit_step_fst_tp_hits, avg_step_fst_tp_hits,
    entry2_step_fst_tp_hits]

lemma active_body_not_activated (cfg : Config) (now : ℤ) (p : ℚ) (s : Signal) (kv : KV)
    (h : s.activated = false) : active_body cfg now p s kv = (s, kv, []) := by
  simp [active_body, entry2_step, avg_step, return_ep1_step, tp1_rehit_step, tp_step, h]

lemma monitor_tick_none (cfg : Config) (now : ℤ) (s : Signal) (kv : KV) :
    monitor_tick cfg now none s kv = (s, kv, []) := rfl

lemma monitor_tick_expired (cfg : Config) (now : ℤ) (pr : Option ℚ) (s : Signal) (kv : KV)
    (h : s.reporting_expired = true) : monitor_tick cfg now pr s kv = (s, kv, []) := by
  cases pr <;> simp [monitor_tick, h]

lemma monitor_tick_to_active_body (cfg : Config) (now : ℤ) (p : ℚ) (s : Signal) (kv : KV)
    (h1 : s.reporting_expired = false) (h2 : s.activated = true)
    (h3 : is_reporting_active cfg now s.activated_ts = true) :
    monitor_tick cfg now (some p) s kv = active_body cfg now p s kv := by
  simp [monitor_tick, h1, h2, h3]

lemma monitor_tick_market_unactivated (cfg : Config) (now : ℤ) (pr : Option ℚ) (s : Signal)
    (kv : KV) (h1 : s.activated = false) (h2 : s.mode = Mode.MARKET) :
    monitor_tick cfg now pr s kv = (s, kv, []) := by
  cases pr with
  | none => rfl
  | some p =>
    by_cases hexp : s.reporting_expired = true
    · exact monitor_tick_expired cfg now (some p) s kv hexp
    · simp only [Bool.not_eq_true] at hexp
      simp [monitor_tick, hexp, h1, h2, active_body_not_activated cfg now p s kv h1]

lemma monitor_tick_fst_tps (cfg : Config) (now : ℤ) (pr : Option ℚ) (s : Signal) (kv : KV) :
    (monitor_tick cfg now pr s kv).1.tps = s.tps := by
  cases pr with
  | none => rfl
  | some p =>
    simp only [monitor_tick]
    (repeat' split) <;> simp [active_body_fst_tps]

lemma monitor_tick_tp_hits_mono (cfg : Config) (now : ℤ) (pr : Option ℚ) (s : Signal)
    (kv : KV) : s.tp_hits ≤ (monitor_tick cfg now pr s kv).1.tp_hits := by
  cases pr with
  | none => exact Nat.le_refl _
  | some p =>
    simp only [monitor_tick]
    (repeat' split) <;> simp [active_body_fst_tp_hits]
    split
    · exact tp_loop_fst_le s.side p s.tps s.tp_hits
    · exact Nat.le_refl _

lemma monitor_tick_tp_hits_le (cfg : Config) (now : ℤ) (pr : Option ℚ) (s : Signal)
    (kv : KV) (h : s.tp_hits ≤ s.tps.length) :
    (monitor_tick cfg now pr s kv).1.tp_hits ≤ s.tps.length := by
  cases pr with
  | none => exact h
  | some p =>
    simp only [monitor_tick]
    (repeat' split) <;> simp [active_body_fst_tp_hits]
    · exact h
    · exact h
    · exact h
    · split
      · exact tp_loop_fst_le_length s.side p s.tps s.tp_hits h
      · exact h

lemma run_ticks_cons (cfg : Config) (now : ℤ) (pr : Option ℚ)
    (rest : List (ℤ × Option ℚ)) (s : Signal) (kv : KV) :
    run_ticks cfg ((now, pr) :: rest) s kv =
      run_ticks cfg rest (monitor_tick cfg now pr s kv).1
        (monitor_tick cfg now pr s kv).2.1 := rfl

lemma run_trace_cons (cfg : Config) (now : ℤ) (pr : Option ℚ)
    (rest : List (ℤ × Option ℚ)) (s : Signal) (kv : KV) :
    run_trace cfg ((now, pr) :: rest) s kv =
      ((run_trace cfg rest (monitor_tick cfg now pr s kv).1
          (monitor_tick cfg now pr s kv).2.1).1,
       (run_trace cfg rest (monitor_tick cfg now pr s kv).1
          (monitor_tick cfg now pr s kv).2.1).2.1,
       (monitor_tick cfg now pr s kv).2.2 ++
         (run_trace cfg rest (monitor_tick cfg now pr s kv).1
            (monitor_tick cfg now pr s kv).2.1).2.2) := rfl

lemma run_ticks_tps (cfg : Config) :
    ∀ (ticks : List (ℤ × Option ℚ)) (s : Signal) (kv : KV),
      (run_ticks cfg ticks s kv).1.tps = s.tps := by
  intro ticks
  induction ticks with
  | nil => intro s kv; rfl
  | cons t rest ih =>
    intro s kv
    obtain ⟨now, pr⟩ := t
    rw [run_ticks_cons, ih, monitor_tick_fst_tps]

lemma run_ticks_tp_hits_mono (cfg : Config) :
    ∀ (ticks : List (ℤ × Option ℚ)) (s : Signal) (kv : KV),
      s.tp_hits ≤ (run_ticks cfg ticks s kv).1.tp_hits := by
  intro ticks
  induction ticks with
  | nil => intro s kv; exact Nat.le_refl _
  | cons t rest ih =>
    intro s kv
    obtain ⟨now, pr⟩ := t
    rw [run_ticks_cons]
    exact Nat.le_trans (monitor_tick_tp_hits_mono cfg now pr s kv) (ih _ _)

lemma run_ticks_tp_hits_le (cfg : Config) :
    ∀ (ticks : List (ℤ × Option ℚ)) (s : Signal) (kv : KV),
      s.tp_hits ≤ s.tps.length → (run_ticks cfg ticks s kv).1.tp_hits ≤ s.tps.length := by
  intro ticks
  induction ticks with
  | nil => intro s kv h; exact h
  | cons t rest ih =>
    intro s kv h
    obtain ⟨now, pr⟩ := t
    rw [run_ticks_cons]
    have h1 := monitor_tick_tp_hits_le cfg now pr s kv h
    have h2 := monitor_tick_fst_tps cfg now pr s kv
    have := ih (monitor_tick cfg now pr s kv).1 (monitor_tick cfg now pr s kv).2.1
      (by rw [h2]; exact h1)
    rwa [h2] at this

lemma run_trace_expired (cfg : Config) :
    ∀ (ticks : List (ℤ × Option ℚ)) (s : Signal) (kv : KV),
      s.reporting_expired = true → run_trace cfg ticks s kv = (s, kv, []) := by
  intro ticks
  induction ticks with
  | nil => intro s kv _; rfl
  | cons t rest ih =>
    intro s kv h
    obtain ⟨now, pr⟩ := t
    rw [run_trace_cons, monitor_tick_expired cfg now pr s kv h]
    simp [ih s kv h]

lemma run_ticks_market_unactivated (cfg : Config) :
    ∀ (ticks : List (ℤ × Option ℚ)) (s : Signal) (kv : KV),
      s.activated = false → s.mode = Mode.MARKET → run_ticks cfg ticks s kv = (s, kv) := by
  intro ticks
  induction ticks with
  | nil => intro s kv _ _; rfl
  | cons t rest ih =>
    intro s kv h1 h2
    obtain ⟨now, pr⟩ := t
    rw [run_ticks_cons, monitor_tick_market_unactivated cfg now pr s kv h1 h2]
    exact ih s kv h1 h2

lemma pbe_of_noEmit {ops : List Op} (h : noTargetEmit ops) : persistBeforeEmit ops := by
  intro i k p tp hg
  exact absurd (List.get?_mem hg) (h k p tp)

lemma noTargetEmit_append {a b : List Op} (ha : noTargetEmit a) (hb : noTargetEmit b) :
    noTargetEmit (a ++ b) := by
  intro k p tp hmem
  rcases List.mem_append.mp hmem with h | h
  · exact ha k p tp h
  · exact hb k p tp h

lemma pbe_append {a b : List Op} (ha : noTargetEmit a) (hb : persistBeforeEmit b) :
    persistBeforeEmit (a ++ b) := by
  intro i k p tp hg
  by_cases hi : i < a.length
  · rw [List.get?_append hi] at hg
    exact absurd (List.get?_mem hg) (ha k p tp)
  · push_neg at hi
    rw [List.get?_append_right hi] at hg
    obtain ⟨j, hj, hjg⟩ := hb (i - a.length) k p tp hg
    refine ⟨a.length + j, by omega, ?_⟩
    rw [List.get?_append_right (by omega)]
    simpa [Nat.add_sub_cancel_left] using hjg

lemma wait_activation_noEmit (cfg : Config) (now : ℤ) (p : ℚ) (s : Signal) :
    noTargetEmit (wait_activation cfg now p s).2 := by
  intro k pr tp
  simp only [wait_activation]
  (repeat' split) <;> simp

lemma entry2_step_noEmit (cfg : Config) (now : ℤ) (p perf : ℚ) (s : Signal) :
    noTargetEmit (entry2_step cfg now p perf s).2 := by
  intro k pr tp
  simp only [entry2_step]
  (repeat' split) <;> simp

lemma avg_step_noEmit (p : ℚ) (e1p : Option ℚ) (s : Signal) :
    noTargetEmit (avg_step p e1p s).2 := by
  intro k pr tp
  simp only [avg_step]
  (repeat' split) <;> simp

lemma return_ep1_step_noEmit (cfg : Config) (p : ℚ) (e1p : Option ℚ) (s : Signal) (kv : KV) :
    noTargetEmit (return_ep1_step cfg p e1p s kv).2 := by
  intro k pr tp
  simp only [return_ep1_step]
  (repeat' split) <;> simp

lemma tp1_rehit_step_noEmit (p : ℚ) (s : Signal) :
    noTargetEmit (tp1_rehit_step p s).2 := by
  intro k pr tp
  simp only [tp1_rehit_step]
  (repeat' split) <;> simp

lemma tp_step_pbe (p : ℚ) (s : Signal) : persistBeforeEmit (tp_step p s).2 := by
  simp only [tp_step]
  split
  · exact tp_scan_pbe s.side p (s.tps.drop s.tp_hits) s.tp_hits
  · intro i k pr tp hg; simp at hg

lemma active_body_pbe (cfg : Config) (now : ℤ) (p : ℚ) (s : Signal) (kv : KV) :
    persistBeforeEmit (active_body cfg now p s kv).2.2 := by
  simp only [active_body]
  exact pbe_append
    (noTargetEmit_append
      (noTargetEmit_append
        (noTargetEmit_append (entry2_step_noEmit cfg now p _ s) (avg_step_noEmit p _ _))
        (return_ep1_step_noEmit cfg p _ _ kv))
      (tp1_rehit_step_noEmit p _))
    (tp_step_pbe p _)

lemma monitor_tick_pbe (cfg : Config) (now : ℤ) (pr : Option ℚ) (s : Signal) (kv : KV) :
    persistBeforeEmit (monitor_tick cfg now pr s kv).2.2 := by
  cases pr with
  | none => intro i k p tp hg; simp [monitor_tick] at hg
  | some p =>
    simp only [monitor_tick]
    (repeat' split)
    · intro i k q tp hg; simp at hg
    · exact pbe_of_noEmit (wait_activation_noEmit cfg now p s)
    · intro i k q tp hg
      rcases i with _ | i <;> simp at hg
    · exact active_body_pbe cfg now p s kv

@[simp] lemma countTp1_append (a b : List Op) :
    countTp1Rehit (a ++ b) = countTp1Rehit a + countTp1Rehit b :=
  List.count_append _ _ _

@[simp] lemma wait_activation_tp1_count (cfg : Config) (now : ℤ) (p : ℚ) (s : Signal) :
    countTp1Rehit (wait_activation cfg now p s).2 = 0 := by
  simp only [wait_activation]
  (repeat' split) <;> simp [countTp1Rehit]

@[simp] lemma entry2_step_tp1_count (cfg : Config) (now : ℤ) (p perf : ℚ) (s : Signal) :
    countTp1Rehit (entry2_step cfg now p perf s).2 = 0 := by
  simp only [entry2_step]
  (repeat' split) <;> simp [countTp1Rehit]

@[simp] lemma avg_step_tp1_count (p : ℚ) (e1p : Option ℚ) (s : Signal) :
    countTp1Rehit (avg_step p e1p s).2 = 0 := by
  simp only [avg_step]
  (repeat' split) <;> simp [countTp1Rehit]

@[simp] lemma return_ep1_step_tp1_count (cfg : Config) (p : ℚ) (e1p : Option ℚ)
    (s : Signal) (kv : KV) : countTp1Rehit (return_ep1_step cfg p e1p s kv).2 = 0 := by
  simp only [return_ep1_step]
  (repeat' split) <;> simp [countTp1Rehit]

lemma tp_scan_tp1_count (side : Side) (p : ℚ) :
    ∀ (rest : List ℚ) (hits : ℕ), countTp1Rehit (tp_scan side p rest hits).2 = 0 := by
  intro rest
  induction rest with
  | nil => intro hits; simp [tp_scan, countTp1Rehit]
  | cons tp more ih =>
    intro hits
    cases h : tp_is_hit side p tp with
    | true =>
      simp only [tp_scan, h, if_true]
      simpa [countTp1Rehit, List.count_cons] using ih (hits + 1)
    | false => simp [tp_scan, h, countTp1Rehit]

@[simp] lemma tp_step_tp1_count (p : ℚ) (s : Signal) :
    countTp1Rehit (tp_step p s).2 = 0 := by
  simp only [tp_step]
  split
  · exact tp_scan_tp1_count s.side p _ _
  · simp [countTp1Rehit]

lemma tp1_rehit_step_of_sent (p : ℚ) (s : Signal) (h : s.tp1_rehit_sent = true) :
    tp1_rehit_step p s = (s, []) := by
  simp [tp1_rehit_step, h]

lemma tp1_rehit_step_tp1_count_le (p : ℚ) (s : Signal) :
    countTp1Rehit (tp1_rehit_step p s).2 ≤ 1 := by
  simp only [tp1_rehit_step]
  (repeat' split) <;> simp [countTp1Rehit]

lemma tp1_rehit_step_count_flag (p : ℚ) (s : Signal)
    (h : 1 ≤ countTp1Rehit (tp1_rehit_step p s).2) :
    (tp1_rehit_step p s).1.tp1_rehit_sent = true := by
  simp only [tp1_rehit_step] at h ⊢
  (repeat' split) <;> simp_all [countTp1Rehit]

lemma active_body_tp1_count_le (cfg : Config) (now : ℤ) (p : ℚ) (s : Signal) (kv : KV) :
    countTp1Rehit (active_body cfg now p s kv).2.2 ≤ 1 := by
  simp only [active_body, countTp1_append, entry2_step_tp1_count, avg_step_tp1_count,
    return_ep1_step_tp1_count, tp_step_tp1_count]
  simpa using tp1_rehit_step_tp1_count_le p _

lemma active_body_tp1_fired_flag (cfg : Config) (now : ℤ) (p : ℚ) (s : Signal) (kv : KV)
    (h : 1 ≤ countTp1Rehit (active_body cfg now p s kv).2.2) :
    (active_body cfg now p s kv).1.tp1_rehit_sent = true := by
  simp only [active_body, countTp1_append, entry2_step_tp1_count, avg_step_tp1_count,
    return_ep1_step_tp1_count, tp_step_tp1_count] at h
  simp only [active_body, tp_step_fst_tp1_sent]
  exact tp1_rehit_step_count_flag p _ (by omega)

lemma active_body_tp1_sent_preserved (cfg : Config) (now : ℤ) (p : ℚ) (s : Signal) (kv : KV)
    (h : s.tp1_rehit_sent = true) :
    (active_body cfg now p s kv).1.tp1_rehit_sent = true ∧
      countTp1Rehit (active_body cfg now p s kv).2.2 = 0 := by
  have h25 : (avg_step p (entry1_price_of p s)
      (entry2_step cfg now p (perf_from_e1_of p s) s).1).1.tp1_rehit_sent = true := by
    rw [avg_step_fst_tp1_sent, entry2_step_fst_tp1_sent]
    exact h
  have h3 := tp1_rehit_step_of_sent p _ h25
  constructor
  · simp only [active_body, tp_step_fst_tp1_sent, h3]
    exact h25
  · simp only [active_body, countTp1_append, entry2_step_tp1_count, avg_step_tp1_count,
      return_ep1_step_tp1_count, tp_step_tp1_count, h3]
    simp [countTp1Rehit]

lemma monitor_tick_shape (cfg : Config) (now : ℤ) (p : ℚ) (s : Signal) (kv : KV) :
    monitor_tick cfg now (some p) s kv = (s, kv, []) ∨
    monitor_tick cfg now (some p) s kv =
      ((wait_activation cfg now p s).1, kv, (wait_activation cfg now p s).2) ∨
    monitor_tick cfg now (some p) s kv =
      ({ s with reporting_expired := true }, kv, [Op.persistExpired]) ∨
    monitor_tick cfg now (some p) s kv = active_body cfg now p s kv := by
  by_cases hexp : s.reporting_expired = true
  · exact Or.inl (by simp [monitor_tick, hexp])
  · by_cases hw : (!s.activated && decide (s.mode = Mode.WAIT)) = true
    · refine Or.inr (Or.inl ?_)
      simp [monitor_tick, hexp, hw]
    · by_cases hrep : (s.activated && !is_reporting_active cfg now s.activated_ts) = true
      · refine Or.inr (Or.inr (Or.inl ?_))
        simp [monitor_tick, hexp, hw, hrep]
      · refine Or.inr (Or.inr (Or.inr ?_))
        simp [monitor_tick, hexp, hw, hrep]

lemma monitor_tick_tp1_count_le (cfg : Config) (now : ℤ) (pr : Option ℚ) (s : Signal)
    (kv : KV) : countTp1Rehit (monitor_tick cfg now pr s kv).2.2 ≤ 1 := by
  cases pr with
  | none => simp [monitor_tick, countTp1Rehit]
  | some p =>
    rcases monitor_tick_shape cfg now p s kv with hm | hm | hm | hm <;> rw [hm]
    · simp [countTp1Rehit]
    · simp
    · simp [countTp1Rehit, List.count_cons]
    · exact active_body_tp1_count_le cfg now p s kv

lemma monitor_tick_tp1_sent_preserved (cfg : Config) (now : ℤ) (pr : Option ℚ)
    (s : Signal) (kv : KV) (h : s.tp1_rehit_sent = true) :
    (monitor_tick cfg now pr s kv).1.tp1_rehit_sent = true ∧
      countTp1Rehit (monitor_tick cfg now pr s kv).2.2 = 0 := by
  cases pr with
  | none => exact ⟨h, by simp [monitor_tick, countTp1Rehit]⟩
  | some p =>
    rcases monitor_tick_shape cfg now p s kv with hm | hm | hm | hm <;> rw [hm]
    · exact ⟨h, by simp [countTp1Rehit]⟩
    · exact ⟨by simp [h], by simp⟩
    · exact ⟨h, by simp [countTp1Rehit, List.count_cons]⟩
    · exact active_body_tp1_sent_preserved cfg now p s kv h

lemma monitor_tick_tp1_fired_flag (cfg : Config) (now : ℤ) (pr : Option ℚ)
    (s : Signal) (kv : KV) (h : 1 ≤ countTp1Rehit (monitor_tick cfg now pr s kv).2.2) :
    (monitor_tick cfg now pr s kv).1.tp1_rehit_sent = true := by
  cases pr with
  | none => simp [monitor_tick, countTp1Rehit] at h
  | some p =>
    rcases monitor_tick_shape cfg now p s kv with hm | hm | hm | hm <;> rw [hm] at h ⊢
    · simp [countTp1Rehit] at h
    · have h0 := wait_activation_tp1_count cfg now p s
      simp only [wait_activation_tp1_count] at h
      omega
    · simp [countTp1Rehit, List.count_cons] at h
    · exact active_body_tp1_fired_flag cfg now p s kv h

lemma run_trace_tp1_count_of_sent (cfg : Config) :
    ∀ (ticks : List (ℤ × Option ℚ)) (s : Signal) (kv : KV),
      s.tp1_rehit_sent = true → countTp1Rehit (run_trace cfg ticks s kv).2.2 = 0 := by
  intro ticks
  induction ticks with
  | nil => intro s kv _; simp [run_trace, countTp1Rehit]
  | cons t rest ih =>
    intro s kv h
    obtain ⟨now, pr⟩ := t
    rw [run_trace_cons]
    simp only [countTp1_append]
    obtain ⟨hf, hc⟩ := monitor_tick_tp1_sent_preserved cfg now pr s kv h
    rw [hc, ih _ _ hf]

lemma run_trace_tp1_count (cfg : Config) :
    ∀ (ticks : List (ℤ × Option ℚ)) (s : Signal) (kv : KV),
      s.tp1_rehit_sent = false → countTp1Rehit (run_trace cfg ticks s kv).2.2 ≤ 1 := by
  intro ticks
  induction ticks with
  | nil => intro s kv _; simp [run_trace, countTp1Rehit]
  | cons t rest ih =>
    intro s kv hflag
    obtain ⟨now, pr⟩ := t
    rw [run_trace_cons]
    simp only [countTp1_append]
    have hc1 := monitor_tick_tp1_count_le cfg now pr s kv
    by_cases hfired : 1 ≤ countTp1Rehit (monitor_tick cfg now pr s kv).2.2
    · have hf := monitor_tick_tp1_fired_flag cfg now pr s kv hfired
      have h0 := run_trace_tp1_count_of_sent cfg rest (monitor_tick cfg now pr s kv).1
        (monitor_tick cfg now pr s kv).2.1 hf
      omega
    · cases hb : (monitor_tick cfg now pr s kv).1.tp1_rehit_sent with
      | true =>
        have h0 := run_trace_tp1_count_of_sent cfg rest (monitor_tick cfg now pr s kv).1
          (monitor_tick cfg now pr s kv).2.1 hb
        omega
      | false =>
        have h1 := ih (monitor_tick cfg now pr s kv).1 (monitor_tick cfg now pr s kv).2.1 hb
        omega

/-- The documented env-var defaults: `ACTIVATION_VALID_DAYS=30`,
`REPORTING_ACTIVE_DAYS=60`, `ENTRY2_DISABLE_PROFIT_PCT=15`, `LEVERAGE=20`,
`RETURN_TO_EP1_TOL_PCT=0.15`. -/
def cfgDefault : Config :=
  { activation_valid_days := 30, reporting_active_days := 60,
    entry2_disable_profit_pct := 15, leverage := 20,
    return_to_ep1_tol_pct := 3 / 20 }

def kvInit : KV := { wasBelow := false, sent := false, best := 0 }

/-- A LONG signal activated at 100 with targets `[105, 110, 115]` (the
gap-correctness example of the spec). -/
def sigGap : Signal :=
  { symbol := "X", side := Side.LONG, mode := Mode.WAIT,
    entry1_low := 100, entry1_high := 101,
    entry2_low := none, entry2_high := none,
    tps := [105, 110, 115], created_ts := 0,
    activated := true, activated_ts := some 1, activated_price := some 100,
    tp_hits := 0,
    entry2_activated := false, entry2_activated_ts := none,
    entry2_activated_price := none,
    tp1_rehit_sent := false, avg_reached_sent := false,
    reporting_expired := false }

/-- An expired signal (for terminal-immutability instances). -/
def sigExpired : Signal := { sigGap with reporting_expired := true }

/-- C1: For every signal and every sequence of engine ticks, the `tp_hits`
counter never decreases, and (as long as it starts within bounds, as the
schema default 0 does) it never exceeds the length of the target
list; the target list itself is never changed by the engine. -/
theorem c1_tp_hits_monotone_bounded (cfg : Config) (ticks : List (ℤ × Option ℚ))
    (s : Signal) (kv : KV) :
    (run_ticks cfg ticks s kv).1.tps = s.tps ∧
    s.tp_hits ≤ (run_ticks cfg ticks s kv).1.tp_hits ∧
    (s.tp_hits ≤ s.tps.length → (run_ticks cfg ticks s kv).1.tp_hits ≤ s.tps.length) :=
  ⟨run_ticks_tps cfg ticks s kv, run_ticks_tp_hits_mono cfg ticks s kv,
   fun h => run_ticks_tp_hits_le cfg ticks s kv h⟩

theorem c1_tp_hits_monotone_bounded_witness :
    sigGap.tp_hits ≤ sigGap.tps.length ∧
    (run_ticks cfgDefault [(10, some 112)] sigGap kvInit).1.tp_hits ≤ sigGap.tps.length :=
  ⟨by decide,
   (c1_tp_hits_monotone_bounded cfgDefault [(10, some 112)] sigGap kvInit).2.2 (by decide)⟩

/-- C2: Within a tick, the target loop consumes levels in ascending index
order with non-strict comparison, emits exactly one TargetHit per newly
consumed 1-based index (consecutively from `tp_hits + 1`), stops at the
first unconsumed level that is not hit; in particular a LONG signal with
targets `[105,110,115]` seeing 112 fires exactly index 1 then index 2. -/
theorem c2_target_hits_ascending_gap :
    (∀ (side : Side) (p : ℚ) (tps : List ℚ) (hits : ℕ),
      targetHitIndices (tp_loop side p tps hits).2 =
        List.range' (hits + 1) ((tp_loop side p tps hits).1 - hits) ∧
      (∀ k t, hits ≤ k → k < (tp_loop side p tps hits).1 → tps.get? k = some t →
        tp_is_hit side p t = true) ∧
      ((tp_loop side p tps hits).1 < tps.length →
        ∀ t, tps.get? (tp_loop side p tps hits).1 = some t →
          tp_is_hit side p t = false)) ∧
    targetHitIndices (monitor_tick cfgDefault 10 (some 112) sigGap kvInit).2.2 = [1, 2] ∧
    (monitor_tick cfgDefault 10 (some 112) sigGap kvInit).1.tp_hits = 2 := by
  refine ⟨fun side p tps hits => ⟨?_, ?_, ?_⟩, by decide, by decide⟩
  · exact tp_scan_indices side p (tps.drop hits) hits
  · intro k t hk1 hk2 hget
    have hle := tp_scan_fst_le side p (tps.drop hits) hits
    have hj : (tps.drop hits).get? (k - hits) = some t := by
      rw [List.get?_drop, show hits + (k - hits) = k from by omega]
      exact hget
    exact tp_scan_hits_all side p (tps.drop hits) hits (k - hits) t
      (by unfold tp_loop at hk2; omega) hj
  · intro hlt t hget
    have hle := tp_scan_fst_le side p (tps.drop hits) hits
    unfold tp_loop at hlt hget
    obtain ⟨t', ht', hf⟩ := tp_scan_stop side p (tps.drop hits) hits
      (by rw [List.length_drop]; omega)
    rw [List.get?_drop,
      show hits + ((tp_scan side p (tps.drop hits) hits).1 - hits) =
        (tp_scan side p (tps.drop hits) hits).1 from by omega] at ht'
    rw [hget] at ht'
    injection ht' with ht'
    rw [← ht'] at hf
    exact hf

theorem c2_target_hits_ascending_gap_witness :
    tp_is_hit Side.LONG 112 115 = false :=
  (c2_target_hits_ascending_gap.1 Side.LONG 112 [105, 110, 115] 0).2.2
    (by decide) 115 (by decide)

/-- C5: Once `reporting_expired` is true, no subsequent tick changes any
field of the signal record (nor the per-signal kv state), and no op is
issued for it. -/
theorem c5_terminal_immutability (cfg : Config) (ticks : List (ℤ × Option ℚ))
    (s : Signal) (kv : KV) (h : s.reporting_expired = true) :
    run_trace cfg ticks s kv = (s, kv, []) :=
  run_trace_expired cfg ticks s kv h

theorem c5_terminal_immutability_witness :
    sigExpired.reporting_expired = true ∧
    run_trace cfgDefault [(10, some 112), (20, none)] sigExpired kvInit =
      (sigExpired, kvInit, []) :=
  ⟨rfl, c5_terminal_immutability cfgDefault [(10, some 112), (20, none)] sigExpired kvInit rfl⟩

/-- C7: A failed price lookup (`None`) makes the engine skip the signal
for that tick: the record and kv state are unchanged and no op is issued. -/
theorem c7_price_unavailable_skip (cfg : Config) (now : ℤ) (s : Signal) (kv : KV) :
    monitor_tick cfg now none s kv = (s, kv, []) := rfl

/-- C9: persist-before-emit: every TargetHit emission in the op
trace is strictly preceded by the store commit of the same new `tp_hits`
value. -/
theorem c9_persist_before_emit (cfg : Config) (now : ℤ) (pr : Option ℚ)
    (s : Signal) (kv : KV) :
    persistBeforeEmit (monitor_tick cfg now pr s kv).2.2 :=
  monitor_tick_pbe cfg now pr s kv

theorem c9_persist_before_emit_witness :
    ∃ j, j < 1 ∧
      (monitor_tick cfgDefault 10 (some 112) sigGap kvInit).2.2.get? j =
        some (Op.persistTpHits 1) :=
  c9_persist_before_emit cfgDefault 10 (some 112) sigGap kvInit 1 1 112 105 (by decide)

lemma entry2_step_e2_iff (cfg : Config) (now : ℤ) (p perf zl zh : ℚ) (s : Signal)
    (hact : s.activated = true) (hne2 : s.entry2_activated = false)
    (hzl : s.entry2_low = some zl) (hzh : s.entry2_high = some zh) :
    ((entry2_step cfg now p perf s).1.entry2_activated = true ↔
      (is_activation_valid cfg now s.created_ts = true ∧
       perf < cfg.entry2_disable_profit_pct ∧ zl ≤ p ∧ p ≤ zh)) := by
  simp only [entry2_step, hact, hne2, hzl, hzh, in_range, Option.isSome_some,
    Bool.not_false, Bool.and_true, Bool.true_and, Bool.and_self, if_true]
  split
  · rename_i hc
    simp only [Bool.and_eq_true, decide_eq_true_eq] at hc
    simp only [Signal.entry2_activated]
    constructor
    · intro _; exact ⟨hc.1.1, hc.1.2, hc.2.1, hc.2.2⟩
    · intro _; trivial
  · rename_i hc
    rw [hne2]
    constructor
    · intro h; exact absurd h (by simp)
    · intro ⟨h1, h2, h3, h4⟩
      exact absurd (by simp [h1, h2, h3, h4] : _ = true) hc

/-- C4: For an activated signal whose entry2 is not yet activated (with a
well-formed entry2 zone and a nonzero recorded activation price), a tick
at price `P` activates entry2 exactly when the tick is still inside the
activation window, the signed profit from entry1 is strictly below the
disable threshold, and `P` lies in the entry2 zone; in particular a price
inside the zone with profit at or above the threshold does not activate. -/
theorem c4_entry2_gating (cfg : Config) (now : ℤ) (p zl zh ap : ℚ) (s : Signal) (kv : KV)
    (hexp : s.reporting_expired = false) (hact : s.activated = true)
    (hrep : is_reporting_active cfg now s.activated_ts = true)
    (hne2 : s.entry2_activated = false)
    (hzl : s.entry2_low = some zl) (hzh : s.entry2_high = some zh)
    (hap : s.activated_price = some ap) (hap0 : ap ≠ 0) :
    ((monitor_tick cfg now (some p) s kv).1.entry2_activated = true ↔
      (is_activation_valid cfg now s.created_ts = true ∧
       pct_from_entry p (some ap) s.side < cfg.entry2_disable_profit_pct ∧
       zl ≤ p ∧ p ≤ zh)) := by
  rw [monitor_tick_to_active_body cfg now p s kv hexp hact hrep]
  have hperf : perf_from_e1_of p s = pct_from_entry p (some ap) s.side := by
    simp [perf_from_e1_of, entry1_price_of, hact, hap, hap0]
  simp only [active_body, tp_step_fst_e2, tp1_rehit_step_fst_e2, avg_step_fst_e2, hperf]
  exact entry2_step_e2_iff cfg now p _ zl zh s hact hne2 hzl hzh

/-- An activated LONG signal (entry at 100) with entry2 zone `[95, 97]`. -/
def sigEntry2 : Signal :=
  { sigGap with
    entry2_low := some 95, entry2_high := some 97 }

theorem c4_entry2_gating_witness :
    (monitor_tick cfgDefault 10 (some 96) sigEntry2 kvInit).1.entry2_activated = true :=
  (c4_entry2_gating cfgDefault 10 96 95 97 100 sigEntry2 kvInit rfl rfl (by decide) rfl
    rfl rfl rfl (by norm_num)).mpr
    ⟨by decide, by norm_num [pct_from_entry, cfgDefault, sigEntry2, sigGap], by norm_num, by norm_num⟩

/-- C6: `tryAcquireOrRenew` grants exactly when the stored lease is
expired, already owned by the caller, or unset; on grant the stored lease
becomes `(owner, now + ttl)`, on refusal it is unchanged. -/
theorem c6_lease_contract (st : LockKV) (owner : String) (ttl_sec now : ℕ) :
    ((try_acquire_lock_sync st owner ttl_sec now).1 = true ↔
      (cur_until st ≤ now ∨ cur_owner st = owner ∨ cur_owner st = "")) ∧
    ((try_acquire_lock_sync st owner ttl_sec now).1 = true →
      (try_acquire_lock_sync st owner ttl_sec now).2 =
        { lock_owner := some owner, lock_until := some (now + ttl_sec) }) ∧
    ((try_acquire_lock_sync st owner ttl_sec now).1 = false →
      (try_acquire_lock_sync st owner ttl_sec now).2 = st) := by
  unfold try_acquire_lock_sync
  split
  · rename_i h
    exact ⟨by simp [h], fun _ => rfl, by simp⟩
  · rename_i h
    exact ⟨by simp [h], by simp, fun _ => rfl⟩

theorem c6_lease_contract_witness :
    (try_acquire_lock_sync ⟨some "a", some 100⟩ "b" 90 100).2 =
      ⟨some "b", some 190⟩ :=
  (c6_lease_contract ⟨some "a", some 100⟩ "b" 90 100).2.1 (by decide)

/-- C10: zone membership is inclusive at both bounds, and in WAIT
activation a price inside the entry1 zone activates at that price with
entry1 taking precedence: `entry2_activated` is left unchanged even if
the price also lies in the entry2 zone. -/
theorem c10_zone_inclusive_entry1_precedence :
    (∀ p l h : ℚ, in_range (some p) (some l) (some h) = true ↔ (l ≤ p ∧ p ≤ h)) ∧
    (∀ (cfg : Config) (now : ℤ) (p : ℚ) (s : Signal) (kv : KV),
      s.reporting_expired = false → s.activated = false → s.mode = Mode.WAIT →
      is_activation_valid cfg now s.created_ts = true →
      in_range (some p) (some s.entry1_low) (some s.entry1_high) = true →
      (monitor_tick cfg now (some p) s kv).1.activated = true ∧
      (monitor_tick cfg now (some p) s kv).1.activated_price = some p ∧
      (monitor_tick cfg now (some p) s kv).1.entry2_activated = s.entry2_activated) := by
  constructor
  · intro p l h; simp [in_range]
  · intro cfg now p s kv hexp hact hmode hvalid hin
    have hmt : monitor_tick cfg now (some p) s kv =
        ((wait_activation cfg now p s).1, kv, (wait_activation cfg now p s).2) := by
      simp [monitor_tick, hexp, hact, hmode]
    rw [hmt]
    simp [wait_activation, hvalid, hin]

/-- An unactivated WAIT signal for which the entry1 zone `[100,101]` and entry2
zone `[99,100]` share the boundary price 100. -/
def sigBoundary : Signal :=
  { symbol := "X", side := Side.LONG, mode := Mode.WAIT,
    entry1_low := 100, entry1_high := 101,
    entry2_low := some 99, entry2_high := some 100,
    tps := [110], created_ts := 0,
    activated := false, activated_ts := none, activated_price := none,
    tp_hits := 0,
    entry2_activated := false, entry2_activated_ts := none,
    entry2_activated_price := none,
    tp1_rehit_sent := false, avg_reached_sent := false,
    reporting_expired := false }

theorem c10_zone_inclusive_entry1_precedence_witness :
    (monitor_tick cfgDefault 10 (some 100) sigBoundary kvInit).1.activated = true ∧
    (monitor_tick cfgDefault 10 (some 100) sigBoundary kvInit).1.activated_price =
      some 100 ∧
    (monitor_tick cfgDefault 10 (some 100) sigBoundary kvInit).1.entry2_activated =
      sigBoundary.entry2_activated :=
  c10_zone_inclusive_entry1_precedence.2 cfgDefault 10 100 sigBoundary kvInit rfl rfl rfl
    (by decide) (by decide)

/-- A MARKET draft, as produced by `parse_signal` for a `LONG` line. -/
def draftMarket : Draft :=
  { symbol := "BTCUSDT", side := Side.LONG, mode := Mode.MARKET,
    entry1_low := 100, entry1_high := 101,
    entry2_low := none, entry2_high := none,
    tps := [110] }

lemma market_activate_append_fresh (msgId : ℕ) (now : ℤ) (p : ℚ) (s0 : Signal) :
    ∀ (store : List (ℕ × Signal)), store.any (fun e => e.1 == msgId) = false →
      market_activate (store ++ [(msgId, s0)]) msgId now p =
        store ++ [(msgId, { s0 with
          activated := true, activated_ts := some now,
          activated_price := some p })] := by
  intro store
  induction store with
  | nil => intro _; simp [market_activate]
  | cons e rest ih =>
    intro h
    simp only [List.any_cons, Bool.or_eq_false_iff] at h
    simp only [List.cons_append, market_activate, List.map_cons, h.1, if_false,
      List.cons.injEq]
    exact ⟨rfl, by simpa [market_activate] using ih h.2⟩

/-- C3 counterexample: a MARKET signal for which the ingestion-time price lookup
fails is stored unactivated, a later ingestion retry of the same message
is dropped as a duplicate before the MARKET-activate step, and no monitor
tick activates a MARKET signal — so activation never occurs even though
later price lookups succeed. -/
theorem c3_market_activation_counterexample :
    ingest_post [] 1 draftMarket 0 none = [(1, mk_signal draftMarket 0)] ∧
    (mk_signal draftMarket 0).activated = false ∧
    ingest_post [(1, mk_signal draftMarket 0)] 1 draftMarket 5 (some 100) =
      [(1, mk_signal draftMarket 0)] ∧
    run_ticks cfgDefault [(10, some 100), (20, some 101)]
        (mk_signal draftMarket 0) kvInit =
      (mk_signal draftMarket 0, kvInit) := by
  refine ⟨by decide, by decide, by decide, ?_⟩
  exact run_ticks_market_unactivated cfgDefault _ _ _ rfl rfl

/-- C3 amended: MARKET activation is attempted exactly once, at ingestion
time: a fresh insert with a successful price lookup activates the stored
row unconditionally; a fresh insert with a failed lookup stores the row
unactivated; a duplicate insert returns before the MARKET-activate step;
and no monitor tick ever activates an unactivated MARKET signal — a
failed ingestion-time lookup therefore drops the activation permanently
instead of deferring it to a later retry. -/
theorem c3_market_activation_amended :
    (∀ (store : List (ℕ × Signal)) (msgId : ℕ) (d : Draft) (now : ℤ) (p : ℚ),
      store.any (fun e => e.1 == msgId) = false → d.mode = Mode.MARKET →
      ingest_post store msgId d now (some p) =
        store ++ [(msgId, { mk_signal d now with
          activated := true, activated_ts := some now, activated_price := some p })]) ∧
    (∀ (store : List (ℕ × Signal)) (msgId : ℕ) (d : Draft) (now : ℤ),
      store.any (fun e => e.1 == msgId) = false →
      ingest_post store msgId d now none = store ++ [(msgId, mk_signal d now)]) ∧
    (∀ (store : List (ℕ × Signal)) (msgId : ℕ) (d : Draft) (now : ℤ) (price : Option ℚ),
      store.any (fun e => e.1 == msgId) = true →
      ingest_post store msgId d now price = store) ∧
    (∀ (cfg : Config) (ticks : List (ℤ × Option ℚ)) (s : Signal) (kv : KV),
      s.activated = false → s.mode = Mode.MARKET →
      run_ticks cfg ticks s kv = (s, kv)) := by
  refine ⟨?_, ?_, ?_, ?_⟩
  · intro store msgId d now p hdup hmode
    simp only [ingest_post, save_signal, hdup, Bool.false_eq_true, if_false, hmode,
      if_true]
    exact market_activate_append_fresh msgId now p (mk_signal d now) store hdup
  · intro store msgId d now hdup
    simp only [ingest_post, save_signal, hdup, Bool.false_eq_true, if_false]
    split <;> rfl
  · intro store msgId d now price hdup
    simp [ingest_post, save_signal, hdup]
  · intro cfg ticks s kv h1 h2
    exact run_ticks_market_unactivated cfg ticks s kv h1 h2

theorem c3_market_activation_amended_witness :
    run_ticks cfgDefault [(10, some 100)] (mk_signal draftMarket 0) kvInit =
      (mk_signal draftMarket 0, kvInit) :=
  c3_market_activation_amended.2.2.2 cfgDefault [(10, some 100)]
    (mk_signal draftMarket 0) kvInit rfl rfl

/-- A WAIT LONG signal with entry1 zone `[200,201]` that is never touched,
entry2 zone `[95,97]`, one target at 105. -/
def sigRehit : Signal :=
  { symbol := "X", side := Side.LONG, mode := Mode.WAIT,
    entry1_low := 200, entry1_high := 201,
    entry2_low := some 95, entry2_high := some 97,
    tps := [105], created_ts := 0,
    activated := false, activated_ts := none, activated_price := none,
    tp_hits := 0,
    entry2_activated := false, entry2_activated_ts := none,
    entry2_activated_price := none,
    tp1_rehit_sent := false, avg_reached_sent := false,
    reporting_expired := false }

/-- State of `sigRehit` after a tick at price 96 in the entry2 zone: activated and
entry2-activated simultaneously, with no target consumed yet. -/
def sigRehitA : Signal :=
  { sigRehit with
    activated := true, activated_ts := some 10, activated_price := some 96,
    entry2_activated := true, entry2_activated_ts := some 10,
    entry2_activated_price := some 96 }

/-- State of `sigRehitA` after a tick at price 106: target 1 consumed (after
entry2 activation), average-reclaimed already sent. -/
def sigRehitB : Signal :=
  { sigRehitA with
    tp_hits := 1, avg_reached_sent := true }

lemma sigRehit_tick1 :
    monitor_tick cfgDefault 10 (some 96) sigRehit kvInit =
      (sigRehitA, kvInit,
       [Op.persistActivation 10 96, Op.persistEntry2 10 96, Op.emitActivated 96]) := by
  decide

lemma sigRehit_tick2 :
    monitor_tick cfgDefault 20 (some 106) sigRehitA kvInit =
      (sigRehitB, kvInit,
       [Op.emitAvgReached, Op.persistAvgSent, Op.persistTpHits 1,
        Op.emitTargetHit 1 106 105]) := by
  norm_num [monitor_tick, active_body, wait_activation, entry2_step, avg_step,
    return_ep1_step, tp1_rehit_step, tp_step, tp_loop, tp_scan, entry1_price_of,
    perf_from_e1_of, pct_from_entry, in_range, is_reporting_active, is_activation_valid,
    tp_is_hit, cfgDefault, kvInit, sigRehit, sigRehitA, sigRehitB]

lemma sigRehit_tick3 :
    monitor_tick cfgDefault 30 (some 106) sigRehitB kvInit =
      ({ sigRehitB with tp1_rehit_sent := true }, kvInit,
       [Op.emitTp1Rehit, Op.persistTp1RehitSent]) := by
  norm_num [monitor_tick, active_body, wait_activation, entry2_step, avg_step,
    return_ep1_step, tp1_rehit_step, tp_step, tp_loop, tp_scan, entry1_price_of,
    perf_from_e1_of, pct_from_entry, in_range, is_reporting_active, is_activation_valid,
    tp_is_hit, cfgDefault, kvInit, sigRehit, sigRehitA, sigRehitB]

/-- C8 counterexample: the re-fire event also fires for a signal where
target 1 was consumed only *after* entry2 activated (here both
activation and entry2 activation happen on tick 1 with `tp_hits = 0`,
target 1 is consumed on tick 2, and the "TP1 re-hit after entry2" event
still fires on tick 3) — contradicting "fires only if target level 1 was
already consumed before entry2 activated". -/
theorem c8_tp1_rehit_counterexample :
    (run_ticks cfgDefault [(10, some 96)] sigRehit kvInit).1.entry2_activated = true ∧
    (run_ticks cfgDefault [(10, some 96)] sigRehit kvInit).1.tp_hits = 0 ∧
    Op.emitTp1Rehit ∈
      (run_trace cfgDefault [(10, some 96), (20, some 106), (30, some 106)]
        sigRehit kvInit).2.2 := by
  refine ⟨?_, ?_, ?_⟩
  · rw [run_ticks_cons, sigRehit_tick1]; rfl
  · rw [run_ticks_cons, sigRehit_tick1]; rfl
  · have h : (run_trace cfgDefault [(10, some 96), (20, some 106), (30, some 106)]
        sigRehit kvInit).2.2 =
        [Op.persistActivation 10 96, Op.persistEntry2 10 96, Op.emitActivated 96,
         Op.emitAvgReached, Op.persistAvgSent, Op.persistTpHits 1,
         Op.emitTargetHit 1 106 105, Op.emitTp1Rehit, Op.persistTp1RehitSent] := by
      simp only [run_trace, sigRehit_tick1, sigRehit_tick2, sigRehit_tick3]
      rfl
    rw [h]
    decide

lemma tp1_rehit_step_fires (p q tp1 : ℚ) (rest_tps : List ℚ) (s : Signal)
    (hact : s.activated = true) (he2 : s.entry2_activated = true)
    (hhits : 1 ≤ s.tp_hits) (hflag : s.tp1_rehit_sent = false)
    (htps : s.tps = tp1 :: rest_tps) (hhit : tp_is_hit s.side p tp1 = true)
    (hq : s.entry2_activated_price = some q) (hq0 : q ≠ 0) :
    tp1_rehit_step p s = ({ s with tp1_rehit_sent := true },
      [Op.emitTp1Rehit, Op.persistTp1RehitSent]) := by
  simp [tp1_rehit_step, hact, he2, hhits, hflag, htps, hhit, hq, hq0]

/-- C8 amended: the re-fire notification fires on the first tick on which
the signal is activated, entry2 is activated, at least one target has
been consumed (whether before or after entry2 activation), the one-shot
flag is still unset, and the price touches target level 1 (with a truthy
entry2 price); the one-shot flag guarantees at most one such emission per
signal over any sequence of ticks. -/
theorem c8_tp1_rehit_amended :
    (∀ (cfg : Config) (ticks : List (ℤ × Option ℚ)) (s : Signal) (kv : KV),
      s.tp1_rehit_sent = false →
      countTp1Rehit (run_trace cfg ticks s kv).2.2 ≤ 1) ∧
    (∀ (cfg : Config) (ticks : List (ℤ × Option ℚ)) (s : Signal) (kv : KV),
      s.tp1_rehit_sent = true →
      countTp1Rehit (run_trace cfg ticks s kv).2.2 = 0) ∧
    (∀ (cfg : Config) (now : ℤ) (p q tp1 : ℚ) (rest_tps : List ℚ) (s : Signal) (kv : KV),
      s.reporting_expired = false → s.activated = true →
      is_reporting_active cfg now s.activated_ts = true →
      s.entry2_activated = true → 1 ≤ s.tp_hits → s.tp1_rehit_sent = false →
      s.tps = tp1 :: rest_tps → tp_is_hit s.side p tp1 = true →
      s.entry2_activated_price = some q → q ≠ 0 →
      Op.emitTp1Rehit ∈ (monitor_tick cfg now (some p) s kv).2.2 ∧
      (monitor_tick cfg now (some p) s kv).1.tp1_rehit_sent = true) := by
  refine ⟨fun cfg ticks s kv h => run_trace_tp1_count cfg ticks s kv h,
    fun cfg ticks s kv h => run_trace_tp1_count_of_sent cfg ticks s kv h,
    ?_⟩
  intro cfg now p q tp1 rest_tps s kv hexp hact hrep he2 hhits hflag htps hhit hq hq0
  rw [monitor_tick_to_active_body cfg now p s kv hexp hact hrep]
  have hfire := tp1_rehit_step_fires p q tp1 rest_tps
    ((avg_step p (entry1_price_of p s) s).1)
    (by rw [avg_step_fst_activated]; exact hact)
    (by rw [avg_step_fst_e2]; exact he2)
    (by rw [avg_step_fst_tp_hits]; exact hhits)
    (by rw [avg_step_fst_tp1_sent]; exact hflag)
    (by rw [avg_step_fst_tps]; exact htps)
    (by rw [avg_step_fst_side]; exact hhit)
    (by rw [avg_step_fst_e2_price]; exact hq) hq0
  constructor
  · simp only [active_body, entry2_step_of_e2 cfg now p (perf_from_e1_of p s) s he2,
      hfire]
    simp
  · simp only [active_body, entry2_step_of_e2 cfg now p (perf_from_e1_of p s) s he2,
      tp_step_fst_tp1_sent, hfire]

theorem c8_tp1_rehit_amended_witness :
    countTp1Rehit (run_trace cfgDefault [(10, some 96), (20, some 106), (30, some 106)]
      sigRehit kvInit).2.2 ≤ 1 :=
  c8_tp1_rehit_amended.1 cfgDefault [(10, some 96), (20, some 106), (30, some 106)]
    sigRehit kvInit rfl

end Poly
